import Mathlib

/-!
Shallow embedding of the acquisition core of `tank_monitor.py` (class
`TankLevelGUI`): configuration constants, the telemetry transform, the
poll cycle (`fetch_tank_levels` inside `modbus_polling`), the staleness
classification used by `update_gui`, the SQLite persistence layer
(`setup_database` plus the per-cycle insert), and the `cleanup` routine.

Modelling conventions:
* Machine floats become exact rationals (`ℚ`); `round(x, 2)` becomes
  `roundTo2`, rounding `100 * x` to the nearest integer (tie behaviour of
  a float `round` is representation dependent, so ties are modelled with
  Mathlib's `round`).
* Timestamps (`datetime.now()`, `timedelta`) become rationals counting
  seconds.
* Each `try/except` block of the source catches every exception raised in
  its body, so the embedded functions are total; the possible failure
  points (connect refused, Modbus error reply, short register list,
  SQLite error) are inputs supplied by a per-cycle environment.
* The `running` flag, written only by `cleanup` and read by the polling
  loop, lives in the state; external clearing is an explicit loop event.
-/

/-- Constant `CAPACITIES['Big Tank']['gallons']` (tank_monitor.py line 34). -/
def capacityBigTank : ℚ := 582000

/-- Constant `CAPACITIES['Tank 1 - Bio']['gallons']` (line 35). -/
def capacityTank1 : ℚ := 20000

/-- Constant `CAPACITIES['Tank 2 - Fleet']['gallons']` = 17478.68 (line 36). -/
def capacityTank2 : ℚ := 1747868 / 100

/-- Constant `MIN_POLL_INTERVAL = 0.1` seconds (line 44). -/
def MIN_POLL_INTERVAL : ℚ := 1 / 10

/-- Constant `DEFAULT_POLL_INTERVAL = 60` seconds (line 46). -/
def DEFAULT_POLL_INTERVAL : ℚ := 60

/-- The value `self.stale_threshold = timedelta(seconds=10)` (line 150), in seconds. -/
def staleThreshold : ℚ := 10

/-- The clamp `self.poll_interval = max(float(config['poll_interval']), MIN_POLL_INTERVAL)`
(line 158). -/
def effectivePollInterval (configured : ℚ) : ℚ :=
  max configured MIN_POLL_INTERVAL

/-- Rounding a rational to the nearest integer (round half up). -/
def roundQ (x : ℚ) : ℤ :=
  ⌊x + 1 / 2⌋

/-- Python's `round(x, 2)`: round to the nearest hundredth. -/
def roundTo2 (x : ℚ) : ℚ :=
  ((roundQ (100 * x) : ℤ) : ℚ) / 100

/-- The expression `(float(raw) / 65535) * capacity` — the unrounded level of lines 668-670. -/
def rawLevel (raw cap : ℚ) : ℚ :=
  raw / 65535 * cap

/-- The per-tank transform step: unrounded level, then `round(level, 2)`
(lines 668-673). -/
def transform (raw cap : ℚ) : ℚ :=
  roundTo2 (rawLevel raw cap)

/-- The six `self.tank_levels[i]['level']` slots, indices 0-5 of the
`tank_levels` list (lines 195-202). -/
structure TankLevels where
  bigTank : ℚ
  tank1 : ℚ
  tank2 : ℚ
  tank3 : ℚ
  tank4 : ℚ
  tank5 : ℚ
deriving DecidableEq, Repr

/-- One row of the `tank_readings` table (schema of lines 533-540):
timestamp plus the three independently measured gallons values. -/
structure LogRecord where
  timestamp : ℚ
  bigTankGallons : ℚ
  tank1Gallons : ℚ
  tank2Gallons : ℚ
deriving DecidableEq, Repr

/-- Acquisition-relevant mutable state of a `TankLevelGUI` instance. -/
structure AppState where
  levels : TankLevels
  lastUpdate : Option ℚ
  running : Bool
  cleanedUp : Bool
  clientOpen : Bool
  timerScheduled : Bool
deriving DecidableEq, Repr

/-- Outcomes of the fallible external calls made by one
`fetch_tank_levels` invocation. `readResult = none` models
`tags.isError()`; a list shorter than 3 models a partial read whose
indexing raises inside the transform step; `persistOk = false` models an
`sqlite3.Error` on insert. -/
structure FetchEnv where
  connectOk : Bool
  readResult : Option (List ℕ)
  persistOk : Bool
  now : ℚ
  dbNow : ℚ
deriving DecidableEq, Repr

/-- Embedding of `fetch_tank_levels` (lines 647-701). Returns the updated state and
the row inserted into `tank_readings` (`none` when no row was inserted).
Connect failure (line 655) and a Modbus error reply (line 665) return
early; a short register list raises during lines 668-670 and is caught
at line 700 before any level is assigned; an insert failure is caught at
line 695 after the levels and `last_update` were already set. -/
def fetch_tank_levels (env : FetchEnv) (s : AppState) : AppState × Option LogRecord :=
  if s.clientOpen = false ∧ env.connectOk = false then
    (s, none)
  else
    let s1 := { s with clientOpen := true }
    match env.readResult with
    | none => (s1, none)
    | some regs =>
      if regs.length < 3 then
        (s1, none)
      else
        let level1 := rawLevel ((regs.getD 0 0 : ℕ) : ℚ) capacityBigTank
        let level2 := rawLevel ((regs.getD 1 0 : ℕ) : ℚ) capacityTank1
        let level3 := rawLevel ((regs.getD 2 0 : ℕ) : ℚ) capacityTank2
        let s2 := { s1 with
          levels := { bigTank := roundTo2 level1, tank1 := roundTo2 level2,
                      tank2 := roundTo2 level3, tank3 := roundTo2 level3,
                      tank4 := roundTo2 level2, tank5 := roundTo2 level2 },
          lastUpdate := some env.now }
        (s2, if env.persistOk then
          some { timestamp := env.dbNow, bigTankGallons := level1,
                 tank1Gallons := level2, tank2Gallons := level3 }
        else none)

/-- Per-cycle inputs of the polling loop body: the reachability probe
outcome (line 618) and the `fetch_tank_levels` environment. -/
structure CycleEnv where
  pingOk : Bool
  fetchEnv : FetchEnv
deriving DecidableEq, Repr

/-- What one cycle produced: the state after the cycle, the row inserted
into `tank_readings`, and whether `root.after(0, self.update_gui)` was
handed to the GUI context (lines 630-633). -/
structure CycleResult where
  state : AppState
  logRecord : Option LogRecord
  guiScheduled : Bool
deriving DecidableEq, Repr

/-- One iteration of the `while self.running` body of `modbus_polling`
(lines 609-645), entered with `running = true`. A failed ping skips the
fetch and the GUI update (line 621 `continue`); otherwise the fetch runs
and the GUI update is scheduled whenever `self.running` is still set. -/
def pollCycle (env : CycleEnv) (s : AppState) : CycleResult :=
  if env.pingOk = false then
    { state := s, logRecord := none, guiScheduled := false }
  else
    let fr := fetch_tank_levels env.fetchEnv s
    { state := fr.1, logRecord := fr.2, guiScheduled := fr.1.running }

/-- An event seen by the polling loop: either one full cycle with its
external outcomes, or the external clearing of `self.running` by
`cleanup` between two cycle checks. -/
inductive LoopEvent
  | cycle (env : CycleEnv)
  | clearRunning
deriving DecidableEq, Repr

/-- The loop of `modbus_polling` (line 608): processes events while `running`
holds, returning the final state and the number of cycle bodies
executed. The loop condition is re-checked before every cycle, and a
cycle reached with `running = false` ends the loop. -/
def loopRun : List LoopEvent → AppState → AppState × Nat
  | [], s => (s, 0)
  | LoopEvent.clearRunning :: es, s => loopRun es { s with running := false }
  | LoopEvent.cycle env :: es, s =>
    if s.running then
      let r := loopRun es (pollCycle env s).state
      (r.1, r.2 + 1)
    else
      (s, 0)

/-- Number of cycle events in an event list. -/
def countCycleEvents : List LoopEvent → Nat
  | [] => 0
  | LoopEvent.cycle _ :: es => countCycleEvents es + 1
  | LoopEvent.clearRunning :: es => countCycleEvents es

/-- The staleness test of `update_gui` line 714:
`self.last_update and (now - self.last_update) > self.stale_threshold`.
A falsy (`None`) `last_update` makes the whole condition false. -/
def isStale (lastUpdate : Option ℚ) (now threshold : ℚ) : Bool :=
  match lastUpdate with
  | none => false
  | some t => decide (now - t > threshold)

/-- Whether `update_gui` takes the gray "stale" fill branch (line 714)
rather than the normal fill-color branch (line 718). -/
def update_gui_stale (s : AppState) (now : ℚ) : Bool :=
  isStale s.lastUpdate now staleThreshold

/-- The `tank_levels.db` file: `some` when it exists on disk, holding
the rows of the `tank_readings` table. -/
structure DbFile where
  rows : List LogRecord
deriving DecidableEq, Repr

/-- The call `os.remove(self.db_path)` (line 175). -/
def removeDbFile (_store : Option DbFile) : Option DbFile :=
  none

/-- Embedding of `setup_database` (lines 525-562): `CREATE TABLE IF NOT EXISTS
tank_readings` — a fresh file gets an empty table, an existing table is
kept as is. -/
def setup_database (store : Option DbFile) : Option DbFile :=
  match store with
  | none => some { rows := [] }
  | some f => some f

/-- Database initialization in `__init__` (lines 171-179): delete the
existing database file if present ("to ensure a fresh start"), then
`setup_database`. -/
def initDatabase (store : Option DbFile) : Option DbFile :=
  setup_database (match store with
    | some _ => removeDbFile store
    | none => none)

/-- The per-cycle `INSERT INTO tank_readings` (lines 689-693). -/
def appendReading (f : DbFile) (rec : LogRecord) : DbFile :=
  { rows := f.rows ++ [rec] }

/-- Side effects `cleanup` can perform, in the order the code attempts
them. -/
inductive CleanupEffect
  | promptShown
  | cancelTimer
  | closeClient
  | destroyWindow
deriving DecidableEq, Repr

/-- The fixed exit-confirmation token `"12345"` (line 772). -/
def EXIT_CODE : String := "12345"

/-- External circumstances of one `cleanup` call: whether
`root.winfo_exists()` succeeds (line 763; a destroyed window raises
`TclError` and skips the prompt), and the operator's dialog answer
(`none` models Cancel). -/
structure CleanupEnv where
  windowAlive : Bool
  token : Option String
deriving DecidableEq, Repr

/-- Embedding of `cleanup` (lines 755-807): returns the state after the call and the
list of effects performed. Already cleaned up: return immediately
(line 758). Live window with a wrong or absent token: abort after the
prompt with no state change (line 778). Otherwise proceed: set
`cleaned_up`, clear `running`, cancel the timer if scheduled, close the
Modbus client if its socket is open, destroy the window. -/
def cleanup (env : CleanupEnv) (s : AppState) : AppState × List CleanupEffect :=
  if s.cleanedUp then
    (s, [])
  else if env.windowAlive ∧ env.token ≠ some EXIT_CODE then
    (s, [CleanupEffect.promptShown])
  else
    ({ s with cleanedUp := true, running := false, clientOpen := false,
              timerScheduled := false },
     (if env.windowAlive then [CleanupEffect.promptShown] else [])
       ++ (if s.timerScheduled then [CleanupEffect.cancelTimer] else [])
       ++ (if s.clientOpen then [CleanupEffect.closeClient] else [])
       ++ [CleanupEffect.destroyWindow])

-- Concrete instances used by counterexamples and scenario theorems.

/-- The freshly initialized acquisition state (lines 148-152, 195-202):
all levels zero, no successful update yet, running, not cleaned up. -/
def initialState : AppState :=
  { levels := { bigTank := 0, tank1 := 0, tank2 := 0, tank3 := 0,
                tank4 := 0, tank5 := 0 },
    lastUpdate := none, running := true, cleanedUp := false,
    clientOpen := false, timerScheduled := true }

/-- A cycle whose connect step fails: ping succeeds, `client.connect()`
returns false. -/
def connectFailCycle : CycleEnv :=
  { pingOk := true,
    fetchEnv := { connectOk := false, readResult := some [1, 2, 3],
                  persistOk := true, now := 5, dbNow := 5 } }

/-- A fully successful cycle at time 0 reading registers `[0, 0, 0]`. -/
def successCycleAt0 : CycleEnv :=
  { pingOk := true,
    fetchEnv := { connectOk := true, readResult := some [0, 0, 0],
                  persistOk := true, now := 0, dbNow := 0 } }

/-- A cycle at time 60 whose register read reports a Modbus error. -/
def readFailCycleAt60 : CycleEnv :=
  { pingOk := true,
    fetchEnv := { connectOk := true, readResult := none,
                  persistOk := true, now := 60, dbNow := 60 } }

/-- A successful fetch environment reading the spec's end-to-end example
registers `[32768, 10000, 5000]` at time 100. -/
def successFetchEnv : FetchEnv :=
  { connectOk := true, readResult := some [32768, 10000, 5000],
    persistOk := true, now := 100, dbNow := 100 }

/-- A reading persisted by an earlier run of the program, used to show
what initialization does to an existing `tank_levels.db`. -/
def priorRecord : LogRecord :=
  { timestamp := 1, bigTankGallons := 2, tank1Gallons := 3, tank2Gallons := 4 }

/-- A state in which cleanup has already completed. -/
def cleanedState : AppState :=
  { levels := initialState.levels, lastUpdate := initialState.lastUpdate,
    running := false, cleanedUp := true, clientOpen := false,
    timerScheduled := false }

-- ## Helper lemmas

/-- The function `roundQ` agrees with Mathlib's nearest-integer rounding. -/
theorem roundQ_eq_round (x : ℚ) : roundQ x = round x :=
  (round_eq x).symm

/-- Rounding to two decimals moves a value by at most half a hundredth. -/
theorem abs_roundTo2_sub_le (x : ℚ) : |roundTo2 x - x| ≤ 1 / 200 := by
  have h : |((roundQ (100 * x) : ℤ) : ℚ) - 100 * x| ≤ 1 / 2 := by
    rw [roundQ_eq_round, abs_sub_comm]
    exact abs_sub_round (100 * x)
  have he : roundTo2 x - x = (((roundQ (100 * x) : ℤ) : ℚ) - 100 * x) / 100 := by
    rw [roundTo2]; ring
  rw [he, abs_div, abs_of_pos (by norm_num : (0 : ℚ) < 100)]
  linarith

/-- The function `fetch_tank_levels` never touches the `running` flag. -/
theorem fetch_preserves_running (env : FetchEnv) (s : AppState) :
    (fetch_tank_levels env s).1.running = s.running := by
  rw [fetch_tank_levels]
  by_cases hc : s.clientOpen = false ∧ env.connectOk = false
  · rw [if_pos hc]
  · rw [if_neg hc]
    cases h : env.readResult with
    | none => rfl
    | some regs =>
      dsimp only
      by_cases hl : regs.length < 3
      · rw [if_pos hl]
      · rw [if_neg hl]

/-- A poll cycle never touches the `running` flag. -/
theorem pollCycle_preserves_running (env : CycleEnv) (s : AppState) :
    (pollCycle env s).state.running = s.running := by
  rw [pollCycle]
  by_cases hp : env.pingOk = false
  · rw [if_pos hp]
  · rw [if_neg hp]
    exact fetch_preserves_running env.fetchEnv s

-- ## Claim theorems

/-- C1 (amended): a poll cycle that fails at the connect step, the
register-read step, or the transform step inserts no row into
`tank_readings`, and the six tank levels and the last-update timestamp
are unchanged after the cycle; the GUI update is nevertheless still
scheduled (the consumer re-renders the unchanged prior state), so no new
Snapshot content reaches the consumer. -/
theorem failed_cycle_preserves_state_no_log (env : CycleEnv) (s : AppState)
    (hping : env.pingOk = true) (hrun : s.running = true)
    (hfail : (s.clientOpen = false ∧ env.fetchEnv.connectOk = false)
      ∨ env.fetchEnv.readResult = none
      ∨ (∃ regs, env.fetchEnv.readResult = some regs ∧ regs.length < 3)) :
    (pollCycle env s).logRecord = none
    ∧ (pollCycle env s).state.levels = s.levels
    ∧ (pollCycle env s).state.lastUpdate = s.lastUpdate
    ∧ (pollCycle env s).guiScheduled = true := by
  have hp : ¬ (env.pingOk = false) := by simp [hping]
  rw [pollCycle, if_neg hp, fetch_tank_levels]
  by_cases hc : s.clientOpen = false ∧ env.fetchEnv.connectOk = false
  · rw [if_pos hc]
    exact ⟨rfl, rfl, rfl, hrun⟩
  · rw [if_neg hc]
    rcases hfail with hconn | hread | ⟨regs, hregs, hlen⟩
    · exact absurd hconn hc
    · rw [hread]
      exact ⟨rfl, rfl, rfl, hrun⟩
    · rw [hregs]
      dsimp only
      rw [if_pos hlen]
      exact ⟨rfl, rfl, rfl, hrun⟩

/-- Witness for C1's theorem: a concrete connect-failure cycle from the
initial state. -/
theorem failed_cycle_preserves_state_no_log_witness :
    (pollCycle connectFailCycle initialState).logRecord = none
    ∧ (pollCycle connectFailCycle initialState).state.levels = initialState.levels
    ∧ (pollCycle connectFailCycle initialState).state.lastUpdate = initialState.lastUpdate
    ∧ (pollCycle connectFailCycle initialState).guiScheduled = true :=
  failed_cycle_preserves_state_no_log connectFailCycle initialState rfl rfl
    (Or.inl ⟨rfl, rfl⟩)

/-- Counterexample to C1 as stated: after a cycle whose connect step
fails, no LogRecord is produced and the state is unchanged, yet
`root.after(0, self.update_gui)` IS handed to the consumer context
(`modbus_polling` schedules the GUI update unconditionally after
`fetch_tank_levels` returns, lines 629-633). -/
theorem failed_cycle_still_schedules_gui_update :
    (pollCycle connectFailCycle initialState).state = initialState
    ∧ (pollCycle connectFailCycle initialState).logRecord = none
    ∧ (pollCycle connectFailCycle initialState).guiScheduled = true := by
  refine ⟨?_, ?_, ?_⟩ <;> rfl

/-- C2: for every raw register value `r` in [0, 65535] and capacity
`c > 0`, the transform step computes `r / 65535 * c` rounded to two
decimals; that value is within 1/200 of the exact linear scaling, the
transform of 0 is 0, and the transform of 65535 is `c` within rounding. -/
theorem transform_matches_linear_scaling (r c : ℚ)
    (h0 : 0 ≤ r) (h1 : r ≤ 65535) (hc : 0 < c) :
    transform r c = roundTo2 (rawLevel r c)
    ∧ |transform r c - rawLevel r c| ≤ 1 / 200
    ∧ transform 0 c = 0
    ∧ |transform 65535 c - c| ≤ 1 / 200 := by
  refine ⟨rfl, abs_roundTo2_sub_le _, ?_, ?_⟩
  · have hz : rawLevel 0 c = 0 := by rw [rawLevel, zero_div, zero_mul]
    rw [transform, hz, roundTo2, roundQ]
    norm_num
  · have he : rawLevel 65535 c = c := by
      rw [rawLevel, div_self (by norm_num : (65535 : ℚ) ≠ 0), one_mul]
    rw [transform, he]
    exact abs_roundTo2_sub_le c

/-- Witness for C2's theorem at `r = 32768`, `c = 582000`. -/
theorem transform_matches_linear_scaling_witness :
    transform 32768 582000 = roundTo2 (rawLevel 32768 582000)
    ∧ |transform 32768 582000 - rawLevel 32768 582000| ≤ 1 / 200
    ∧ transform 0 582000 = 0
    ∧ |transform 65535 582000 - 582000| ≤ 1 / 200 :=
  transform_matches_linear_scaling 32768 582000 (by norm_num) (by norm_num)
    (by norm_num)

/-- C3: in every successful cycle, Tank 3's stored level equals Tank 2's
measured value of that cycle, and Tank 4 and Tank 5 both equal Tank 1's
measured value, so mirrored and source readings come from the same cycle
and can never be independently stale within one published state. -/
theorem mirrored_tanks_equal_source (env : FetchEnv) (s : AppState) (regs : List ℕ)
    (hconn : s.clientOpen = true ∨ env.connectOk = true)
    (hread : env.readResult = some regs) (hlen : 3 ≤ regs.length) :
    (fetch_tank_levels env s).1.levels.tank3 = (fetch_tank_levels env s).1.levels.tank2
    ∧ (fetch_tank_levels env s).1.levels.tank4 = (fetch_tank_levels env s).1.levels.tank1
    ∧ (fetch_tank_levels env s).1.levels.tank5 = (fetch_tank_levels env s).1.levels.tank1
    ∧ (fetch_tank_levels env s).1.levels.tank2 = transform ((regs.getD 2 0 : ℕ) : ℚ) capacityTank2
    ∧ (fetch_tank_levels env s).1.levels.tank1 = transform ((regs.getD 1 0 : ℕ) : ℚ) capacityTank1
    ∧ (fetch_tank_levels env s).1.lastUpdate = some env.now := by
  have hc : ¬ (s.clientOpen = false ∧ env.connectOk = false) := by
    rcases hconn with h | h <;> simp [h]
  have hl : ¬ (regs.length < 3) := by omega
  rw [fetch_tank_levels, if_neg hc, hread]
  dsimp only
  rw [if_neg hl]
  exact ⟨rfl, rfl, rfl, rfl, rfl, rfl⟩

/-- Witness for C3's theorem at the spec's end-to-end registers
`[32768, 10000, 5000]`. -/
theorem mirrored_tanks_equal_source_witness :
    (fetch_tank_levels successFetchEnv initialState).1.levels.tank3
      = (fetch_tank_levels successFetchEnv initialState).1.levels.tank2
    ∧ (fetch_tank_levels successFetchEnv initialState).1.levels.tank4
      = (fetch_tank_levels successFetchEnv initialState).1.levels.tank1
    ∧ (fetch_tank_levels successFetchEnv initialState).1.levels.tank5
      = (fetch_tank_levels successFetchEnv initialState).1.levels.tank1
    ∧ (fetch_tank_levels successFetchEnv initialState).1.levels.tank2
      = transform ((([32768, 10000, 5000] : List ℕ).getD 2 0 : ℕ) : ℚ) capacityTank2
    ∧ (fetch_tank_levels successFetchEnv initialState).1.levels.tank1
      = transform ((([32768, 10000, 5000] : List ℕ).getD 1 0 : ℕ) : ℚ) capacityTank1
    ∧ (fetch_tank_levels successFetchEnv initialState).1.lastUpdate
      = some successFetchEnv.now :=
  mirrored_tanks_equal_source successFetchEnv initialState [32768, 10000, 5000]
    (Or.inr rfl) rfl (by norm_num)

/-- C4: for every sequence of cycles and every combination of per-cycle
errors (probe failure, connect failure, read error, transform error,
persistence error encoded in the cycle environments), the acquisition
loop does not terminate: as long as no external event clears the
`running` flag, every cycle body executes and the loop is still running
afterwards — the loop exits only when the flag has been cleared. -/
theorem polling_loop_exits_only_on_flag_clear (events : List LoopEvent) (s : AppState)
    (hrun : s.running = true) (hnoclear : LoopEvent.clearRunning ∉ events) :
    (loopRun events s).2 = countCycleEvents events
    ∧ (loopRun events s).1.running = true := by
  induction events generalizing s with
  | nil => exact ⟨rfl, hrun⟩
  | cons e es ih =>
    cases e with
    | clearRunning => exact absurd (List.mem_cons_self _ _) hnoclear
    | cycle env =>
      have hnc : LoopEvent.clearRunning ∉ es := fun h =>
        hnoclear (List.mem_cons_of_mem _ h)
      have hrun2 : (pollCycle env s).state.running = true :=
        (pollCycle_preserves_running env s).trans hrun
      obtain ⟨h1, h2⟩ := ih (pollCycle env s).state hrun2 hnc
      refine ⟨?_, ?_⟩
      · show (loopRun (LoopEvent.cycle env :: es) s).2 = countCycleEvents es + 1
        simp only [loopRun, hrun, if_true]
        rw [h1]
      · simp only [loopRun, hrun, if_true]
        exact h2

/-- Witness for C4's theorem: two error cycles (a connect failure and a
read failure) from the initial state; both execute and the loop remains
running. -/
theorem polling_loop_exits_only_on_flag_clear_witness :
    (loopRun [LoopEvent.cycle connectFailCycle, LoopEvent.cycle readFailCycleAt60]
      initialState).2
      = countCycleEvents [LoopEvent.cycle connectFailCycle, LoopEvent.cycle readFailCycleAt60]
    ∧ (loopRun [LoopEvent.cycle connectFailCycle, LoopEvent.cycle readFailCycleAt60]
        initialState).1.running = true :=
  polling_loop_exits_only_on_flag_clear
    [LoopEvent.cycle connectFailCycle, LoopEvent.cycle readFailCycleAt60]
    initialState rfl (by simp)

/-- C5 (amended): the staleness classification of `update_gui` line 714
is true iff a successful update has occurred at least once and the
elapsed time since it exceeds the threshold; consequently in the state
where no successful update has ever occurred the classification is
false, and the data is displayed with the normal fresh fill colors, not
as stale/unknown. -/
theorem isStale_iff_updated_and_elapsed (lu : Option ℚ) (now thr : ℚ) :
    isStale lu now thr = true ↔ ∃ t, lu = some t ∧ thr < now - t := by
  cases lu with
  | none => simp [isStale]
  | some t => simp [isStale]

/-- Counterexample to C5 as stated: in the never-yet-updated initial
state, `update_gui` takes the fresh-colors branch (the stale test is
false because `self.last_update` is `None`), so the data is reported as
fresh, not as stale/unknown. -/
theorem never_updated_state_displayed_fresh :
    initialState.lastUpdate = none
    ∧ update_gui_stale initialState 100 = false :=
  ⟨rfl, rfl⟩

/-- C6 (amended): during a run, every write the core performs on the
`tank_readings` table is an insertion at the end — previously inserted
rows are never updated, deleted, or reordered by any number of appends;
but the store is not durable across the core's lifecycle, because
initialization deletes an existing database file. -/
theorem appendReading_preserves_existing_records (recs : List LogRecord) (f : DbFile) :
    (recs.foldl appendReading f).rows = f.rows ++ recs := by
  induction recs generalizing f with
  | nil => simp
  | cons r rs ih =>
    rw [List.foldl_cons, ih]
    simp [appendReading]

/-- Counterexample to C6 as stated: `__init__` (lines 171-179) removes
the existing `tank_levels.db` before `setup_database`, so a record
persisted by a previous run is gone — the core does remove previously
persisted records. -/
theorem init_deletes_previous_records :
    initDatabase (some { rows := [priorRecord] }) = some { rows := [] } :=
  rfl

/-- C7 (amended): the staleness threshold (10 s) is shorter than the
default poll interval (60 s), so a single missed cycle is NOT tolerated:
one full poll interval after the last successful update the staleness
test already reports stale, and the degraded indicator is shown at the
next publication. -/
theorem stale_threshold_below_poll_interval (t : ℚ) :
    staleThreshold < DEFAULT_POLL_INTERVAL
    ∧ isStale (some t) (t + DEFAULT_POLL_INTERVAL) staleThreshold = true := by
  constructor
  · rw [staleThreshold, DEFAULT_POLL_INTERVAL]; norm_num
  · simp only [isStale, staleThreshold, DEFAULT_POLL_INTERVAL, decide_eq_true_eq]
    linarith

/-- Counterexample to C7 as stated: one successful cycle at time 0, then
one failed (read-error) cycle whose publication happens at time 60 — the
degraded (stale) indicator IS already shown at that next publication. -/
theorem one_missed_cycle_shows_stale_indicator :
    (pollCycle successCycleAt0 initialState).state.lastUpdate = some 0
    ∧ (pollCycle readFailCycleAt60 (pollCycle successCycleAt0 initialState).state).logRecord
        = none
    ∧ (pollCycle readFailCycleAt60 (pollCycle successCycleAt0 initialState).state).guiScheduled
        = true
    ∧ update_gui_stale
        (pollCycle readFailCycleAt60 (pollCycle successCycleAt0 initialState).state).state 60
        = true := by
  refine ⟨rfl, rfl, rfl, ?_⟩
  norm_num [update_gui_stale, isStale, staleThreshold, pollCycle, readFailCycleAt60,
    successCycleAt0, initialState, fetch_tank_levels, rawLevel, roundTo2, roundQ]

/-- C8: if `cleanup` runs while the window is alive and the operator
supplies a wrong or absent confirmation token, cleanup aborts with no
state change — `running` keeps its value, `cleaned_up` is not set, and
the Modbus connection is not closed. -/
theorem wrong_token_cleanup_aborts_unchanged (env : CleanupEnv) (s : AppState)
    (halive : env.windowAlive = true) (htok : env.token ≠ some EXIT_CODE) :
    (cleanup env s).1 = s
    ∧ CleanupEffect.closeClient ∉ (cleanup env s).2 := by
  rw [cleanup]
  by_cases hcl : s.cleanedUp = true
  · rw [if_pos hcl]
    exact ⟨rfl, by simp⟩
  · rw [if_neg hcl, if_pos ⟨halive, htok⟩]
    refine ⟨rfl, ?_⟩
    simp

/-- Witness for C8's theorem: a wrong token `"00000"` with a live window
leaves the initial (running) state untouched. -/
theorem wrong_token_cleanup_aborts_unchanged_witness :
    (cleanup { windowAlive := true, token := some "00000" } initialState).1 = initialState
    ∧ CleanupEffect.closeClient
        ∉ (cleanup { windowAlive := true, token := some "00000" } initialState).2 :=
  wrong_token_cleanup_aborts_unchanged { windowAlive := true, token := some "00000" }
    initialState rfl (by simp [EXIT_CODE])

/-- C9: once the `cleaned_up` guard is set, invoking `cleanup` again —
from either trigger, with any window/token circumstances — returns
immediately with the state unchanged and performs no effect at all: no
prompt, no second close of the Modbus connection, no window teardown. -/
theorem cleanup_idempotent_after_cleaned (env : CleanupEnv) (s : AppState)
    (h : s.cleanedUp = true) :
    cleanup env s = (s, []) := by
  rw [cleanup, if_pos h]

/-- Witness for C9's theorem: calling `cleanup` on an already-cleaned
state with a live window does nothing. -/
theorem cleanup_idempotent_after_cleaned_witness :
    cleanup { windowAlive := true, token := none } cleanedState = (cleanedState, []) :=
  cleanup_idempotent_after_cleaned { windowAlive := true, token := none } cleanedState rfl

/-- C10: in every successful cycle, the row inserted into
`tank_readings` holds the three unrounded levels `raw / 65535 * capacity`
while the published tank levels are those same values rounded to two
decimals; the two agree within the rounding precision of 1/200, but not
bit for bit (at register 32768 on the Big Tank they differ). -/
theorem persisted_unrounded_displayed_rounded (env : FetchEnv) (s : AppState)
    (regs : List ℕ)
    (hconn : s.clientOpen = true ∨ env.connectOk = true)
    (hread : env.readResult = some regs) (hlen : 3 ≤ regs.length)
    (hper : env.persistOk = true) :
    (fetch_tank_levels env s).2 =
      some { timestamp := env.dbNow,
             bigTankGallons := rawLevel ((regs.getD 0 0 : ℕ) : ℚ) capacityBigTank,
             tank1Gallons := rawLevel ((regs.getD 1 0 : ℕ) : ℚ) capacityTank1,
             tank2Gallons := rawLevel ((regs.getD 2 0 : ℕ) : ℚ) capacityTank2 }
    ∧ (fetch_tank_levels env s).1.levels.bigTank
        = roundTo2 (rawLevel ((regs.getD 0 0 : ℕ) : ℚ) capacityBigTank)
    ∧ (fetch_tank_levels env s).1.levels.tank1
        = roundTo2 (rawLevel ((regs.getD 1 0 : ℕ) : ℚ) capacityTank1)
    ∧ (fetch_tank_levels env s).1.levels.tank2
        = roundTo2 (rawLevel ((regs.getD 2 0 : ℕ) : ℚ) capacityTank2)
    ∧ |(fetch_tank_levels env s).1.levels.bigTank
        - rawLevel ((regs.getD 0 0 : ℕ) : ℚ) capacityBigTank| ≤ 1 / 200
    ∧ roundTo2 (rawLevel 32768 capacityBigTank) ≠ rawLevel 32768 capacityBigTank := by
  have hc : ¬ (s.clientOpen = false ∧ env.connectOk = false) := by
    rcases hconn with h | h <;> simp [h]
  have hl : ¬ (regs.length < 3) := by omega
  rw [fetch_tank_levels, if_neg hc, hread]
  dsimp only
  rw [if_neg hl, if_pos hper]
  refine ⟨rfl, rfl, rfl, rfl, abs_roundTo2_sub_le _, ?_⟩
  norm_num [roundTo2, roundQ, rawLevel, capacityBigTank]

/-- Witness for C10's theorem at the spec's end-to-end registers
`[32768, 10000, 5000]`. -/
theorem persisted_unrounded_displayed_rounded_witness :
    (fetch_tank_levels successFetchEnv initialState).2 =
      some { timestamp := successFetchEnv.dbNow,
             bigTankGallons :=
               rawLevel ((([32768, 10000, 5000] : List ℕ).getD 0 0 : ℕ) : ℚ) capacityBigTank,
             tank1Gallons :=
               rawLevel ((([32768, 10000, 5000] : List ℕ).getD 1 0 : ℕ) : ℚ) capacityTank1,
             tank2Gallons :=
               rawLevel ((([32768, 10000, 5000] : List ℕ).getD 2 0 : ℕ) : ℚ) capacityTank2 }
    ∧ (fetch_tank_levels successFetchEnv initialState).1.levels.bigTank
        = roundTo2 (rawLevel ((([32768, 10000, 5000] : List ℕ).getD 0 0 : ℕ) : ℚ) capacityBigTank)
    ∧ (fetch_tank_levels successFetchEnv initialState).1.levels.tank1
        = roundTo2 (rawLevel ((([32768, 10000, 5000] : List ℕ).getD 1 0 : ℕ) : ℚ) capacityTank1)
    ∧ (fetch_tank_levels successFetchEnv initialState).1.levels.tank2
        = roundTo2 (rawLevel ((([32768, 10000, 5000] : List ℕ).getD 2 0 : ℕ) : ℚ) capacityTank2)
    ∧ |(fetch_tank_levels successFetchEnv initialState).1.levels.bigTank
        - rawLevel ((([32768, 10000, 5000] : List ℕ).getD 0 0 : ℕ) : ℚ) capacityBigTank| ≤ 1 / 200
    ∧ roundTo2 (rawLevel 32768 capacityBigTank) ≠ rawLevel 32768 capacityBigTank :=
  persisted_unrounded_displayed_rounded successFetchEnv initialState
    [32768, 10000, 5000] (Or.inr rfl) rfl (by norm_num) rfl
